import Mathlib

/-!
Shallow embedding of the `PostHogTours` class (src/PostHogTours.ts, current
revision: the variant with the active-tour gate, the localStorage seen-cache
and the `debug` flag).  Pure functions of the source become Lean functions;
the mutable fields of the class (`activeTourId`, the localStorage blob) become
an explicit state record threaded through each method; calls out of the class
(`posthog.people.set`, `posthog.capture`, `localStorage.setItem` /
`removeItem`, assigning the gate, invoking an `onEligible` callback) are
recorded as entries of an event trace, in execution order.  The DOM, the flag
service and the remote person-properties snapshot are a read-only environment.
Callbacks themselves are opaque: the model records only whether a tour has its
own `onEligible` and whether a manager-wide default exists, and the trace
records the invocation.
-/

namespace PosthogTours

/-- A tour's configuration as registered (`TourConfig` of types.ts, current
revision: `name`, optional `target` selector, optional `onEligible`).  The
callback itself is opaque; the model keeps only whether one is configured. -/
structure TourConfig where
  name : String
  target : Option String
  hasOnEligible : Bool
deriving DecidableEq, Repr

/-- The constructor-supplied, immutable configuration of a `PostHogTours`
instance: the tour registry in insertion order (a JS object with string keys
preserves insertion order), the user-property key prefix (default
`seen_tour_`), whether a manager-wide default callback exists, and the
`checkElementVisibility` option (default true).  No method of the class ever
mutates `this.tours`, the prefix or these options, so they live outside the
mutable state. -/
structure Config where
  tours : List (String × TourConfig)
  userPropertyPrefix : String
  hasDefaultOnEligible : Bool
  shouldCheckElementVisibility : Bool
deriving DecidableEq, Repr

/-- The parsed content of the `posthog_tours_seen` localStorage entry: either
a JSON object (a finite map, insertion-ordered) or a string that does not
parse as JSON. -/
inductive LocalBlob where
  | good : List (String × Bool) → LocalBlob
  | corrupt : LocalBlob
deriving DecidableEq, Repr

/-- The mutable state of a `PostHogTours` instance that the modelled methods
read and write: the single-slot active-tour gate (`this.activeTourId`) and the
localStorage entry under `posthog_tours_seen` (`none` = key absent). -/
structure TState where
  activeTourId : Option String
  localStore : Option LocalBlob
deriving DecidableEq, Repr

/-- The read-only world: the flag service (`posthog.isFeatureEnabled`), the
remote person-properties snapshot (`$stored_person_properties`, modelled as a
finite map so its keys can be enumerated), the DOM (`document.querySelector`,
elements named by numbers), and whether `localStorage.setItem` throws
(quota exceeded). -/
structure Env where
  isFeatureEnabled : String → Bool
  remoteProps : List (String × Bool)
  querySelector : String → Option Nat
  localWriteFails : Bool

/-- Observable actions, recorded in execution order:
`remoteSet k` = `posthog.people.set({k: true})`;
`capture name tourId tourName` = `posthog.capture(name, {tour_id, tour_name})`;
`localWrite m` = a successful `localStorage.setItem('posthog_tours_seen', JSON.stringify(m))`;
`localRemove` = `localStorage.removeItem('posthog_tours_seen')`;
`gateClaimed t` = the assignment `this.activeTourId = t`;
`callbackFired t` = invocation of the resolved `onEligible` callback;
`checkAllToursInvoked` = the un-awaited `this.checkAllTours()` call;
`warnMissingFlags l` = the diagnostic listing the missing flag ids. -/
inductive Event where
  | remoteSet : String → Event
  | capture : String → String → Option String → Event
  | localWrite : List (String × Bool) → Event
  | localRemove : Event
  | gateClaimed : String → Event
  | callbackFired : String → Event
  | checkAllToursInvoked : Event
  | warnMissingFlags : List String → Event
deriving DecidableEq, Repr

/-- A JavaScript runtime exception escaping a method (the only one the
modelled methods can raise: reading a property of `undefined`). -/
inductive JsError where
  | typeError : JsError
deriving DecidableEq, Repr

/-- JS object read `m[k]` under boolean truthiness: the first binding of `k`,
or false when `k` is absent. -/
def lookupB (m : List (String × Bool)) (k : String) : Bool :=
  match m.find? (fun p => p.1 == k) with
  | some p => p.2
  | none => false

/-- JS object write `m[k] = v`: overwrite in place when the key exists,
append otherwise (JS objects keep insertion order). -/
def setKey : List (String × Bool) → String → Bool → List (String × Bool)
  | [], k, v => [(k, v)]
  | p :: t, k, v => if p.1 == k then (p.1, v) :: t else p :: setKey t k v

/-- `this.tours[tourId]`: JS object indexing, `undefined` when absent. -/
def lookupTour (cfg : Config) (tourId : String) : Option TourConfig :=
  (cfg.tours.find? (fun p => p.1 == tourId)).map (fun p => p.2)

/-- JS truthiness of a `string | undefined` selector: `undefined` and the
empty string are falsy. -/
def selTruthy : Option String → Bool
  | none => false
  | some s => !(s == "")

/-- `getSeenToursFromStorage`: read and `JSON.parse` the
`posthog_tours_seen` entry; a missing entry yields `{}`; a parse failure is
caught, the corrupted entry is removed (`localStorage.removeItem`) and `{}`
is returned.  Returns (parsed map, state after, trace). -/
def getSeenToursFromStorage (st : TState) :
    List (String × Bool) × TState × List Event :=
  match st.localStore with
  | none => ([], st, [])
  | some (LocalBlob.good m) => (m, st, [])
  | some LocalBlob.corrupt =>
      ([], { st with localStore := none }, [Event.localRemove])

/-- `saveSeenToursToStorage`: `localStorage.setItem` of the stringified map;
a throw (e.g. quota exceeded) is caught and only logged, leaving the stored
entry unchanged.  Returns (state after, trace). -/
def saveSeenToursToStorage (env : Env) (st : TState)
    (m : List (String × Bool)) : TState × List Event :=
  if env.localWriteFails then (st, [])
  else ({ st with localStore := some (LocalBlob.good m) }, [Event.localWrite m])

/-- `hasTourBeenSeen`: check localStorage first; when it says seen return
true at once; otherwise consult the remote snapshot, and when the remote says
seen write that back into localStorage before returning true. -/
def hasTourBeenSeen (cfg : Config) (env : Env) (st : TState)
    (tourId : String) : Bool × TState × List Event :=
  let key := Config.userPropertyPrefix cfg ++ tourId
  let r := getSeenToursFromStorage st
  if lookupB r.1 key then (true, r.2.1, r.2.2)
  else
    let seenInPostHog := lookupB env.remoteProps key
    if seenInPostHog then
      let w := saveSeenToursToStorage env r.2.1 (setKey r.1 key true)
      (true, w.1, r.2.2 ++ w.2)
    else (false, r.2.1, r.2.2)

/-- `TourEligibilityResult` of types.ts: always fully populated. -/
structure TourEligibilityResult where
  eligible : Bool
  element : Option Nat
  tourId : String
  flagEnabled : Bool
  targetPresent : Bool
  alreadySeen : Bool
deriving DecidableEq, Repr

/-- `checkTourEligibility(tourId)`.  `vis` is the boolean the inner
`checkVisibility` promise resolved with (consulted only when the
`checkElementVisibility` option is on and the earlier gates passed; the
protocol that produces it is modelled separately by `checkVisibilityStart` /
`visStep`).  An unknown `tourId` makes `this.tours[tourId]` `undefined` and
the subsequent `tour.target` read throws a `TypeError`, modelled as
`Except.error`.  The trace records the gate assignment and the callback
invocation in their execution order. -/
def checkTourEligibility (cfg : Config) (env : Env) (st : TState)
    (tourId : String) (vis : Bool) :
    Except JsError (TourEligibilityResult × TState × List Event) :=
  match lookupTour cfg tourId with
  | none => Except.error JsError.typeError
  | some tour =>
    if !(selTruthy tour.target) then
      let s := hasTourBeenSeen cfg env st tourId
      Except.ok ({ eligible := false, element := none, tourId := tourId,
                   flagEnabled := env.isFeatureEnabled tourId,
                   targetPresent := false, alreadySeen := s.1 },
                 s.2.1, s.2.2)
    else
      let element := env.querySelector (tour.target.getD "")
      let flagEnabled := env.isFeatureEnabled tourId
      let s := hasTourBeenSeen cfg env st tourId
      let result : TourEligibilityResult :=
        { eligible := false, element := element, tourId := tourId,
          flagEnabled := flagEnabled, targetPresent := element.isSome,
          alreadySeen := s.1 }
      if element.isNone || !flagEnabled || s.1 then
        Except.ok (result, s.2.1, s.2.2)
      else if Config.shouldCheckElementVisibility cfg && !vis then
        Except.ok (result, s.2.1, s.2.2)
      else
        let result := { result with eligible := true }
        if (s.2.1).activeTourId.isNone then
          let cb := tour.hasOnEligible || Config.hasDefaultOnEligible cfg
          Except.ok (result, { s.2.1 with activeTourId := some tourId },
                     s.2.2 ++ [Event.gateClaimed tourId] ++
                       (if cb then [Event.callbackFired tourId] else []))
        else
          Except.ok (result, s.2.1, s.2.2)

/-- `markTourAsSeen(tourId)`: remote write first (`posthog.people.set`), then
the read-merge-write of localStorage, then the `tour_seen` capture event
(`tour_name` is `this.tours[tourId]?.name`), then `this.activeTourId = null`,
then the un-awaited `this.checkAllTours()` (recorded as a trace marker; the
caller returns without awaiting it). -/
def markTourAsSeen (cfg : Config) (env : Env) (st : TState)
    (tourId : String) : TState × List Event :=
  let key := Config.userPropertyPrefix cfg ++ tourId
  let r := getSeenToursFromStorage st
  let w := saveSeenToursToStorage env r.2.1 (setKey r.1 key true)
  ({ w.1 with activeTourId := none },
   [Event.remoteSet key] ++ r.2.2 ++ w.2 ++
     [Event.capture "tour_seen" tourId
        ((lookupTour cfg tourId).map TourConfig.name)] ++
     [Event.checkAllToursInvoked])

/-- The loop body of `checkAllTours`: evaluate each registry entry in order,
collect the results, and break after the first result with `eligible` true.
`visOracle` supplies each inner visibility resolution. -/
def checkAllToursGo (cfg : Config) (env : Env) (visOracle : String → Bool) :
    List (String × TourConfig) → TState →
    Except JsError (List TourEligibilityResult × TState × List Event)
  | [], st => Except.ok ([], st, [])
  | p :: rest, st =>
    match checkTourEligibility cfg env st p.1 (visOracle p.1) with
    | Except.error e => Except.error e
    | Except.ok (r, st1, ev1) =>
      if r.eligible then Except.ok ([r], st1, ev1)
      else
        match checkAllToursGo cfg env visOracle rest st1 with
        | Except.error e => Except.error e
        | Except.ok (rs, st2, ev2) => Except.ok (r :: rs, st2, ev1 ++ ev2)

/-- `checkAllTours()`: iterate `Object.keys(this.tours)` in insertion
order. -/
def checkAllTours (cfg : Config) (env : Env) (st : TState)
    (visOracle : String → Bool) :
    Except JsError (List TourEligibilityResult × TState × List Event) :=
  checkAllToursGo cfg env visOracle cfg.tours st

/-- `getTourConfig(flagKey)`: pure registry lookup. -/
def getTourConfig (cfg : Config) (flagKey : String) : Option TourConfig :=
  lookupTour cfg flagKey

/-- `forceTour(tourId)`: requires only a registered tour, a truthy selector
and a present element; invokes the resolved callback when one exists and
reports whether it did.  It reads neither the gate nor the seen state and
mutates nothing. -/
def forceTour (cfg : Config) (env : Env) (tourId : String) :
    Bool × List Event :=
  match lookupTour cfg tourId with
  | none => (false, [])
  | some tour =>
    if !(selTruthy tour.target) then (false, [])
    else
      match env.querySelector (tour.target.getD "") with
      | none => (false, [])
      | some _ =>
        if tour.hasOnEligible || Config.hasDefaultOnEligible cfg then
          (true, [Event.callbackFired tourId])
        else (false, [])

/-- A DOM bounding client rectangle (the four edges consulted by
`checkVisibility`). -/
structure Rect where
  top : Int
  left : Int
  bottom : Int
  right : Int
deriving DecidableEq, Repr

/-- The synchronous in-viewport test of `checkVisibility`: the rectangle is
fully inside the viewport. -/
def isInViewport (r : Rect) (viewportHeight viewportWidth : Int) : Bool :=
  decide (r.top ≥ 0) && decide (r.left ≥ 0) &&
    decide (r.bottom ≤ viewportHeight) && decide (r.right ≤ viewportWidth)

/-- The observer/timer subscription created by `checkVisibility` when the
element is not already in the viewport: the `IntersectionObserver` threshold
and the `setTimeout` delay, as configured at subscription time. -/
structure VisSub where
  threshold : Rat
  timeoutMs : Nat
deriving DecidableEq, Repr

/-- The per-invocation state of a pending `checkVisibility` promise:
`connected` = the `IntersectionObserver` has not been `disconnect`ed (a
disconnected observer delivers no further callbacks); `registered` = the
invocation's entry is still in `this.intersectionObservers` (the
live-subscription registry the timer consults); `resolutions` = the values
`resolve` has been called with so far, in order. -/
structure VisMachine where
  connected : Bool
  registered : Bool
  resolutions : List Bool
deriving DecidableEq, Repr

/-- The two external occurrences a pending `checkVisibility` reacts to: an
intersection-observer callback (carrying `entries[0].isIntersecting`) and the
firing of the 30-second timer. -/
inductive VisEvent where
  | intersect : Bool → VisEvent
  | timerFired : VisEvent
deriving DecidableEq, Repr

/-- The synchronous part of `checkVisibility`: either an immediate
resolution (element already fully in the viewport, no subscription created)
or a live subscription with its observer threshold and timer delay. -/
inductive VisStart where
  | immediate : Bool → VisStart
  | subscribed : VisMachine → VisSub → VisStart
deriving DecidableEq, Repr

/-- The state just after `observer.observe(element)` and
`this.intersectionObservers.set(tourId, observer)`. -/
def initialVisMachine : VisMachine :=
  { connected := true, registered := true, resolutions := [] }

/-- The synchronous prefix of `checkVisibility(tourId, element)`. -/
def checkVisibilityStart (r : Rect) (viewportHeight viewportWidth : Int) :
    VisStart :=
  if isInViewport r viewportHeight viewportWidth then VisStart.immediate true
  else VisStart.subscribed initialVisMachine
    { threshold := 1/10, timeoutMs := 30000 }

/-- One delivered occurrence.  The observer callback resolves `true` on an
intersecting entry, disconnecting and deleting the registry entry (a
disconnected observer receives nothing, so `connected` gates it).  The timer
callback checks `this.intersectionObservers.has(tourId)` first: when the
entry is gone (already resolved) it does nothing; otherwise it disconnects,
deletes and resolves `false`. -/
def visStep (m : VisMachine) : VisEvent → VisMachine
  | VisEvent.intersect b =>
    if m.connected && b then
      { connected := false, registered := false,
        resolutions := m.resolutions ++ [true] }
    else m
  | VisEvent.timerFired =>
    if m.registered then
      { connected := false, registered := false,
        resolutions := m.resolutions ++ [false] }
    else m

/-- A whole delivered schedule, in order. -/
def visRun (m : VisMachine) (es : List VisEvent) : VisMachine :=
  es.foldl visStep m

/-- `syncLocalStorageWithPostHog` (constructor step): copy into localStorage
every remote key that starts with the configured prefix, is truthy remotely
and is not yet truthy locally; persist once at the end and only when
something changed. -/
def syncLocalStorageWithPostHog (cfg : Config) (env : Env) (st : TState) :
    TState × List Event :=
  let r := getSeenToursFromStorage st
  let final := env.remoteProps.foldl
    (fun (acc : List (String × Bool) × Bool) p =>
      if p.1.startsWith (Config.userPropertyPrefix cfg) && p.2 &&
          !(lookupB acc.1 p.1) then
        (setKey acc.1 p.1 true, true)
      else acc)
    (r.1, false)
  if final.2 then
    let w := saveSeenToursToStorage env r.2.1 final.1
    (w.1, r.2.2 ++ w.2)
  else (r.2.1, r.2.2)

/-- The two policies the repository holds for unconfigured feature flags:
the current class only warns and continues (permissive), the earlier class
throws `PostHogFeatureFlagsNotConfiguredError` (strict).  The spec treats
the pair as a configurable mode. -/
inductive FlagPolicy where
  | permissive
  | strict
deriving DecidableEq, Repr

/-- A construction failure: `PostHogNotInitializedError` or
`PostHogFeatureFlagsNotConfiguredError` (carrying the missing flag ids). -/
inductive ConstructError where
  | notInitialized : ConstructError
  | flagsNotConfigured : List String → ConstructError
deriving DecidableEq, Repr

/-- `Object.keys(this.tours).filter(flag => !isFeatureEnabled(flag))`. -/
def missingFlags (cfg : Config) (env : Env) : List String :=
  (cfg.tours.map (fun p => p.1)).filter (fun f => !(env.isFeatureEnabled f))

/-- `validateFeatureFlags`, by policy: permissive (current class) emits one
diagnostic through `this.log` — which is silent unless `debug` — and
returns; strict (earlier class) throws when any flag is missing. -/
def validateFeatureFlags (policy : FlagPolicy) (debug : Bool) (cfg : Config)
    (env : Env) : Except ConstructError (List Event) :=
  match policy with
  | FlagPolicy.permissive =>
    if missingFlags cfg env = [] then Except.ok []
    else Except.ok
      (if debug then [Event.warnMissingFlags (missingFlags cfg env)] else [])
  | FlagPolicy.strict =>
    if missingFlags cfg env = [] then Except.ok []
    else Except.error (ConstructError.flagsNotConfigured (missingFlags cfg env))

/-- What a completed construction exposes: the tour registry the instance
holds (every supplied tour, whether or not its flag exists) and the
diagnostics emitted while constructing. -/
structure ManagerInit where
  registry : List (String × TourConfig)
  events : List Event
deriving DecidableEq, Repr

/-- The constructor: fail when the service is not loaded, validate the flags
under the given policy (strict aborts, so no instance and no registry
exists), then run the remote-to-local seen-state reconciliation.  (The final
constructor step, starting one element watcher per tour with a selector, is
the watcher layer and is not modelled here.) -/
def construct (policy : FlagPolicy) (debug loaded : Bool) (cfg : Config)
    (env : Env) (st : TState) :
    Except ConstructError (ManagerInit × TState) :=
  if !loaded then Except.error ConstructError.notInitialized
  else
    match validateFeatureFlags policy debug cfg env with
    | Except.error e => Except.error e
    | Except.ok ev =>
      let s := syncLocalStorageWithPostHog cfg env st
      Except.ok ({ registry := cfg.tours, events := ev ++ s.2 }, s.1)

/-- Whether a trace entry is a `posthog.capture` call. -/
def isCapture : Event → Bool
  | Event.capture _ _ _ => true
  | _ => false

/-- Whether a trace entry is the missing-flags diagnostic. -/
def isWarn : Event → Bool
  | Event.warnMissingFlags _ => true
  | _ => false

/-- Concrete registry used to evaluate the theorems on closed inputs: two
tours with selectors (mirroring the test fixtures) and one without. -/
def cfgW : Config :=
  { tours :=
      [("feature-a", { name := "Feature A Tour",
                       target := some "#feature-a-element",
                       hasOnEligible := true }),
       ("feature-b", { name := "Feature B Tour",
                       target := some "#feature-b-element",
                       hasOnEligible := true }),
       ("welcome", { name := "Welcome", target := none,
                     hasOnEligible := false })],
    userPropertyPrefix := "seen_tour_",
    hasDefaultOnEligible := false,
    shouldCheckElementVisibility := false }

/-- Concrete world: all flags on, the remote snapshot says `feature-a` was
seen, both selector targets present, local writes succeed. -/
def envW : Env :=
  { isFeatureEnabled := fun _ => true,
    remoteProps := [("seen_tour_feature-a", true)],
    querySelector := fun s =>
      if s == "#feature-a-element" then some 1
      else if s == "#feature-b-element" then some 2
      else none,
    localWriteFails := false }

/-- Fresh state: empty gate, no localStorage entry. -/
def stEmpty : TState := { activeTourId := none, localStore := none }

/-- State in which `feature-a` already holds the active-tour gate. -/
def stGateHeld : TState :=
  { activeTourId := some "feature-a", localStore := none }

/-- The two results a full `checkAllTours` pass over `cfgW` under `envW`
produces from a fresh state: `feature-a` ineligible (already seen
remotely), `feature-b` eligible — the pass stops there. -/
def rsW : List TourEligibilityResult :=
  [{ eligible := false, element := some 1, tourId := "feature-a",
     flagEnabled := true, targetPresent := true, alreadySeen := true },
   { eligible := true, element := some 2, tourId := "feature-b",
     flagEnabled := true, targetPresent := true, alreadySeen := false }]

theorem lookupB_setKey_self (m : List (String × Bool)) (k : String) :
    lookupB (setKey m k true) k = true := by
  induction m with
  | nil => simp [setKey, lookupB]
  | cons q t ih =>
    by_cases hq : q.1 == k
    · simp [setKey, lookupB, List.find?, hq]
    · simp only [setKey, hq, if_false, Bool.false_eq_true]
      simpa [lookupB, List.find?, hq] using ih

theorem getSeenToursFromStorage_activeTourId (st : TState) :
    (getSeenToursFromStorage st).2.1.activeTourId = st.activeTourId := by
  obtain ⟨a, ls⟩ := st
  cases ls with
  | none => rfl
  | some b => cases b with
    | good m => rfl
    | corrupt => rfl

theorem saveSeenToursToStorage_activeTourId (env : Env) (st : TState)
    (m : List (String × Bool)) :
    (saveSeenToursToStorage env st m).1.activeTourId = st.activeTourId := by
  unfold saveSeenToursToStorage
  split <;> rfl

theorem getSeenToursFromStorage_events (st : TState) :
    ∀ e ∈ (getSeenToursFromStorage st).2.2, e = Event.localRemove := by
  obtain ⟨a, ls⟩ := st
  cases ls with
  | none => simp [getSeenToursFromStorage]
  | some b => cases b <;> simp [getSeenToursFromStorage]

theorem saveSeenToursToStorage_events (env : Env) (st : TState)
    (m : List (String × Bool)) :
    ∀ e ∈ (saveSeenToursToStorage env st m).2,
      ∃ m2, e = Event.localWrite m2 := by
  unfold saveSeenToursToStorage
  split <;> simp

theorem hasTourBeenSeen_activeTourId (cfg : Config) (env : Env) (st : TState)
    (tourId : String) :
    (hasTourBeenSeen cfg env st tourId).2.1.activeTourId = st.activeTourId := by
  unfold hasTourBeenSeen
  dsimp only
  split
  · exact getSeenToursFromStorage_activeTourId st
  · split
    · rw [saveSeenToursToStorage_activeTourId,
        getSeenToursFromStorage_activeTourId]
    · exact getSeenToursFromStorage_activeTourId st

theorem hasTourBeenSeen_events (cfg : Config) (env : Env) (st : TState)
    (tourId : String) :
    ∀ e ∈ (hasTourBeenSeen cfg env st tourId).2.2,
      e = Event.localRemove ∨ ∃ m, e = Event.localWrite m := by
  unfold hasTourBeenSeen
  dsimp only
  split
  · intro e he
    exact Or.inl (getSeenToursFromStorage_events st e he)
  · split
    · intro e he
      rcases List.mem_append.mp he with h1 | h2
      · exact Or.inl (getSeenToursFromStorage_events st e h1)
      · exact Or.inr (saveSeenToursToStorage_events _ _ _ e h2)
    · intro e he
      exact Or.inl (getSeenToursFromStorage_events st e he)

/-- Claim C5, counterexample.  The tour `welcome` is registered with no
target selector; its flag is enabled and it has never been seen (empty local
store, remote snapshot without its key), yet `checkTourEligibility` returns
`eligible = false` — the no-selector branch of the source hardcodes
`eligible: false` instead of basing eligibility on flag + seen state. -/
theorem noSelector_eligible_cex :
    checkTourEligibility cfgW envW stEmpty "welcome" true =
      Except.ok ({ eligible := false, element := none, tourId := "welcome",
                   flagEnabled := true, targetPresent := false,
                   alreadySeen := false }, stEmpty, []) := rfl

/-- Claim C5 as amended: for every registered tour whose target selector is
absent (or empty, which JS treats the same), `checkTourEligibility` always
returns `eligible = false`, with `element = null`, `targetPresent = false`,
and the flag-enabled and already-seen diagnostics still reported; the
flag-enabled and not-seen conditions never make such a tour eligible. -/
theorem noSelector_always_ineligible (cfg : Config) (env : Env) (st : TState)
    (tourId : String) (vis : Bool) (tour : TourConfig)
    (hlk : lookupTour cfg tourId = some tour)
    (hsel : selTruthy tour.target = false) :
    checkTourEligibility cfg env st tourId vis =
      Except.ok ({ eligible := false, element := none, tourId := tourId,
                   flagEnabled := env.isFeatureEnabled tourId,
                   targetPresent := false,
                   alreadySeen := (hasTourBeenSeen cfg env st tourId).1 },
                 (hasTourBeenSeen cfg env st tourId).2.1,
                 (hasTourBeenSeen cfg env st tourId).2.2) := by
  unfold checkTourEligibility
  rw [hlk]
  simp [hsel]

/-- Claim C5 amended, witness at the concrete registry `cfgW` (tour
`welcome` has no selector; its flag is on and it is unseen). -/
theorem noSelector_always_ineligible_witness :
    checkTourEligibility cfgW envW stEmpty "welcome" false =
      Except.ok ({ eligible := false, element := none, tourId := "welcome",
                   flagEnabled := envW.isFeatureEnabled "welcome",
                   targetPresent := false,
                   alreadySeen := (hasTourBeenSeen cfgW envW stEmpty "welcome").1 },
                 (hasTourBeenSeen cfgW envW stEmpty "welcome").2.1,
                 (hasTourBeenSeen cfgW envW stEmpty "welcome").2.2) :=
  noSelector_always_ineligible cfgW envW stEmpty "welcome" false
    { name := "Welcome", target := none, hasOnEligible := false }
    rfl rfl

/-- Claim C4, counterexample.  `ghost` is not in the registry, and
`checkTourEligibility("ghost")` raises (the `tour.target` read on the
`undefined` lookup throws a `TypeError`) instead of returning an
empty/negative result — so the claim is false for `checkTourEligibility`
(the spec's own operations table concedes this: "unknown id is a caller
error (undefined target lookup)"). -/
theorem unknownTour_checkTourEligibility_raises_cex :
    checkTourEligibility cfgW envW stEmpty "ghost" true =
      Except.error JsError.typeError := rfl

/-- Claim C4 as amended: for a tour id not in the registry, `forceTour`
returns `false`, `getTourConfig` returns `undefined`, and `markTourAsSeen`
completes without raising (capturing a `tour_seen` event whose `tour_name`
is `undefined`); `checkTourEligibility`, however, raises a `TypeError`
rather than returning a result. -/
theorem unknownTour_operations (cfg : Config) (env : Env) (st : TState)
    (tourId : String) (vis : Bool)
    (h : lookupTour cfg tourId = none) :
    checkTourEligibility cfg env st tourId vis =
      Except.error JsError.typeError ∧
    forceTour cfg env tourId = (false, []) ∧
    getTourConfig cfg tourId = none ∧
    (markTourAsSeen cfg env st tourId).1.activeTourId = none ∧
    Event.capture "tour_seen" tourId none ∈ (markTourAsSeen cfg env st tourId).2 := by
  refine ⟨?_, ?_, ?_, ?_, ?_⟩
  · unfold checkTourEligibility
    rw [h]
  · unfold forceTour
    rw [h]
  · unfold getTourConfig
    exact h
  · simp [markTourAsSeen]
  · simp [markTourAsSeen, h]

/-- Claim C4 amended, witness at the unregistered id `ghost`. -/
theorem unknownTour_operations_witness :
    checkTourEligibility cfgW envW stEmpty "ghost" true =
      Except.error JsError.typeError ∧
    forceTour cfgW envW "ghost" = (false, []) ∧
    getTourConfig cfgW "ghost" = none ∧
    (markTourAsSeen cfgW envW stEmpty "ghost").1.activeTourId = none ∧
    Event.capture "tour_seen" "ghost" none ∈ (markTourAsSeen cfgW envW stEmpty "ghost").2 :=
  unknownTour_operations cfgW envW stEmpty "ghost" true rfl

/-- Claim C2: for every registered tour with a (truthy) target selector,
`checkTourEligibility` returns a fully populated result — tour id, element
reference, flag-enabled, target-present and already-seen diagnostics — in
every branch, and `eligible = true` exactly when the element is present, the
flag is enabled, the tour is unseen, and either visibility checking is off
or the visibility promise resolved true; every failing condition
short-circuits to `eligible = false` with the diagnostics still set. -/
theorem checkTourEligibility_result_spec (cfg : Config) (env : Env)
    (st : TState) (tourId : String) (vis : Bool) (tour : TourConfig)
    (hlk : lookupTour cfg tourId = some tour)
    (hsel : selTruthy tour.target = true) :
    ∃ st' ev, checkTourEligibility cfg env st tourId vis =
      Except.ok
        ({ eligible :=
             (env.querySelector (tour.target.getD "")).isSome &&
               env.isFeatureEnabled tourId &&
               !(hasTourBeenSeen cfg env st tourId).1 &&
               (!(Config.shouldCheckElementVisibility cfg) || vis),
           element := env.querySelector (tour.target.getD ""),
           tourId := tourId,
           flagEnabled := env.isFeatureEnabled tourId,
           targetPresent := (env.querySelector (tour.target.getD "")).isSome,
           alreadySeen := (hasTourBeenSeen cfg env st tourId).1 },
         st', ev) := by
  unfold checkTourEligibility
  rw [hlk]
  dsimp only
  rw [hsel]
  cases hq : env.querySelector (tour.target.getD "") with
  | none =>
    cases hf : env.isFeatureEnabled tourId <;>
      cases hs : (hasTourBeenSeen cfg env st tourId).1 <;>
        simp [hq, hf, hs] <;>
          exact ⟨_, _, rfl⟩
  | some el =>
    cases hf : env.isFeatureEnabled tourId <;>
      cases hs : (hasTourBeenSeen cfg env st tourId).1 <;>
        cases hv : Config.shouldCheckElementVisibility cfg <;>
          cases vis <;>
            simp [hq, hf, hs, hv] <;>
              first
                | (split <;> exact ⟨_, _, rfl⟩)
                | exact ⟨_, _, rfl⟩

/-- Claim C2, witness: the concrete tour `feature-b` (selector present,
flag on, unseen, visibility checking off) evaluates to an eligible, fully
populated result. -/
theorem checkTourEligibility_result_spec_witness :
    ∃ st' ev, checkTourEligibility cfgW envW stEmpty "feature-b" true =
      Except.ok
        ({ eligible := true, element := some 2, tourId := "feature-b",
           flagEnabled := true, targetPresent := true,
           alreadySeen := false }, st', ev) :=
  checkTourEligibility_result_spec cfgW envW stEmpty "feature-b" true
    { name := "Feature B Tour", target := some "#feature-b-element",
      hasOnEligible := true }
    rfl rfl

/-- Claim C3: the seen-state read implements the merge-and-authority rule.
(a) `hasTourBeenSeen` returns true exactly when the prefixed key is truthy
in the (parsed) local store or truthy in the remote snapshot; (b) when the
local store says seen, the remote store is not consulted — the whole call's
outcome is independent of the environment; (c) a malformed local blob is
treated as an empty map and the corrupted entry is removed; (d) when the
remote says seen but the local store does not, the fact is written into the
local store (when the write does not throw) before returning true. -/
theorem hasTourBeenSeen_merge_rule (cfg : Config) (env : Env) (st : TState)
    (tourId : String) :
    ((hasTourBeenSeen cfg env st tourId).1 =
      (lookupB (getSeenToursFromStorage st).1
          (Config.userPropertyPrefix cfg ++ tourId) ||
        lookupB env.remoteProps (Config.userPropertyPrefix cfg ++ tourId))) ∧
    (lookupB (getSeenToursFromStorage st).1
        (Config.userPropertyPrefix cfg ++ tourId) = true →
      ∀ env2 : Env,
        hasTourBeenSeen cfg env2 st tourId = hasTourBeenSeen cfg env st tourId) ∧
    (st.localStore = some LocalBlob.corrupt →
      getSeenToursFromStorage st =
        ([], { st with localStore := none }, [Event.localRemove])) ∧
    (lookupB (getSeenToursFromStorage st).1
        (Config.userPropertyPrefix cfg ++ tourId) = false →
      lookupB env.remoteProps (Config.userPropertyPrefix cfg ++ tourId) = true →
      env.localWriteFails = false →
      (hasTourBeenSeen cfg env st tourId).1 = true ∧
      (hasTourBeenSeen cfg env st tourId).2.1.localStore =
        some (LocalBlob.good (setKey (getSeenToursFromStorage st).1
          (Config.userPropertyPrefix cfg ++ tourId) true)) ∧
      lookupB (setKey (getSeenToursFromStorage st).1
          (Config.userPropertyPrefix cfg ++ tourId) true)
        (Config.userPropertyPrefix cfg ++ tourId) = true) := by
  refine ⟨?_, ?_, ?_, ?_⟩
  · unfold hasTourBeenSeen
    dsimp only
    split
    · simp [*]
    · split <;> simp [*]
  · intro hl env2
    unfold hasTourBeenSeen
    dsimp only
    rw [hl]
    simp
  · intro hc
    obtain ⟨a, ls⟩ := st
    simp only at hc
    subst hc
    rfl
  · intro hl hr hw
    unfold hasTourBeenSeen
    dsimp only
    rw [hl, hr]
    simp [saveSeenToursToStorage, hw, lookupB_setKey_self]

/-- Claim C3, witness: a corrupt local blob with the remote snapshot saying
`feature-a` was seen — the read returns true, discards the corrupt entry and
writes the fact into the local store. -/
theorem hasTourBeenSeen_merge_rule_witness :
    ((hasTourBeenSeen cfgW envW
        { activeTourId := none, localStore := some LocalBlob.corrupt }
        "feature-a").1 =
      (lookupB (getSeenToursFromStorage
          { activeTourId := none, localStore := some LocalBlob.corrupt }).1
          (Config.userPropertyPrefix cfgW ++ "feature-a") ||
        lookupB envW.remoteProps
          (Config.userPropertyPrefix cfgW ++ "feature-a"))) ∧
    (lookupB (getSeenToursFromStorage
        { activeTourId := none, localStore := some LocalBlob.corrupt }).1
        (Config.userPropertyPrefix cfgW ++ "feature-a") = true →
      ∀ env2 : Env,
        hasTourBeenSeen cfgW env2
            { activeTourId := none, localStore := some LocalBlob.corrupt }
            "feature-a" =
          hasTourBeenSeen cfgW envW
            { activeTourId := none, localStore := some LocalBlob.corrupt }
            "feature-a") ∧
    (({ activeTourId := none, localStore := some LocalBlob.corrupt } : TState).localStore =
        some LocalBlob.corrupt →
      getSeenToursFromStorage
          { activeTourId := none, localStore := some LocalBlob.corrupt } =
        ([], { activeTourId := none, localStore := none },
          [Event.localRemove])) ∧
    (lookupB (getSeenToursFromStorage
        { activeTourId := none, localStore := some LocalBlob.corrupt }).1
        (Config.userPropertyPrefix cfgW ++ "feature-a") = false →
      lookupB envW.remoteProps
        (Config.userPropertyPrefix cfgW ++ "feature-a") = true →
      envW.localWriteFails = false →
      (hasTourBeenSeen cfgW envW
          { activeTourId := none, localStore := some LocalBlob.corrupt }
          "feature-a").1 = true ∧
      (hasTourBeenSeen cfgW envW
          { activeTourId := none, localStore := some LocalBlob.corrupt }
          "feature-a").2.1.localStore =
        some (LocalBlob.good (setKey (getSeenToursFromStorage
            { activeTourId := none, localStore := some LocalBlob.corrupt }).1
          (Config.userPropertyPrefix cfgW ++ "feature-a") true)) ∧
      lookupB (setKey (getSeenToursFromStorage
          { activeTourId := none, localStore := some LocalBlob.corrupt }).1
          (Config.userPropertyPrefix cfgW ++ "feature-a") true)
        (Config.userPropertyPrefix cfgW ++ "feature-a") = true) :=
  hasTourBeenSeen_merge_rule cfgW envW
    { activeTourId := none, localStore := some LocalBlob.corrupt } "feature-a"

theorem hasTourBeenSeen_no_callback (cfg : Config) (env : Env) (st : TState)
    (tourId : String) :
    ∀ t, Event.callbackFired t ∉ (hasTourBeenSeen cfg env st tourId).2.2 := by
  intro t ht
  rcases hasTourBeenSeen_events cfg env st tourId _ ht with h | ⟨m, h⟩ <;>
    simp at h

theorem hasTourBeenSeen_no_remoteSet (cfg : Config) (env : Env) (st : TState)
    (tourId : String) :
    ∀ k, Event.remoteSet k ∉ (hasTourBeenSeen cfg env st tourId).2.2 := by
  intro k hk
  rcases hasTourBeenSeen_events cfg env st tourId _ hk with h | ⟨m, h⟩ <;>
    simp at h

theorem hasTourBeenSeen_no_capture (cfg : Config) (env : Env) (st : TState)
    (tourId : String) :
    ∀ n t tn, Event.capture n t tn ∉ (hasTourBeenSeen cfg env st tourId).2.2 := by
  intro n t tn hc
  rcases hasTourBeenSeen_events cfg env st tourId _ hc with h | ⟨m, h⟩ <;>
    simp at h

/-- Exhaustive outcome analysis of a non-throwing `checkTourEligibility`
run: the result carries the asked tour id; an eligible result needs the
flag; and the run either stops before the active-slot claim (state and trace
are exactly those of the seen check; an eligible result in that case means
the gate was occupied) or performs the claim (gate was empty, result is
eligible, the gate assignment precedes the optional callback in the
trace). -/
theorem checkTourEligibility_outcome (cfg : Config) (env : Env) (st : TState)
    (tourId : String) (vis : Bool) (r : TourEligibilityResult) (st' : TState)
    (ev : List Event)
    (h : checkTourEligibility cfg env st tourId vis = Except.ok (r, st', ev)) :
    r.tourId = tourId ∧
    (r.eligible = true → env.isFeatureEnabled tourId = true) ∧
    ((ev = (hasTourBeenSeen cfg env st tourId).2.2 ∧
      st' = (hasTourBeenSeen cfg env st tourId).2.1 ∧
      (r.eligible = true → st.activeTourId ≠ none)) ∨
     (∃ cb, ev = (hasTourBeenSeen cfg env st tourId).2.2 ++
          [Event.gateClaimed tourId] ++
          (if cb = true then [Event.callbackFired tourId] else []) ∧
        st' = { (hasTourBeenSeen cfg env st tourId).2.1 with
                  activeTourId := some tourId } ∧
        r.eligible = true ∧ st.activeTourId = none)) := by
  unfold checkTourEligibility at h
  cases hlk : lookupTour cfg tourId with
  | none =>
    rw [hlk] at h
    exact absurd h (by simp)
  | some tour =>
    rw [hlk] at h
    dsimp only at h
    by_cases hsel : selTruthy tour.target
    · simp only [hsel, Bool.not_true, Bool.false_eq_true, if_false] at h
      split at h
      · simp only [Except.ok.injEq, Prod.mk.injEq] at h
        obtain ⟨h1, h2, h3⟩ := h
        subst h1 h2 h3
        exact ⟨rfl, by simp, Or.inl ⟨rfl, rfl, by simp⟩⟩
      · split at h
        · simp only [Except.ok.injEq, Prod.mk.injEq] at h
          obtain ⟨h1, h2, h3⟩ := h
          subst h1 h2 h3
          exact ⟨rfl, by simp, Or.inl ⟨rfl, rfl, by simp⟩⟩
        · rename_i hguard hvis
          split at h
          · simp only [Except.ok.injEq, Prod.mk.injEq] at h
            obtain ⟨h1, h2, h3⟩ := h
            subst h1 h2 h3
            refine ⟨rfl, ?_, Or.inr ⟨tour.hasOnEligible ||
              Config.hasDefaultOnEligible cfg, rfl, rfl, rfl, ?_⟩⟩
            · intro _
              simp only [Bool.or_eq_true, not_or, Bool.not_eq_true,
                Bool.not_eq_false'] at hguard
              exact hguard.1.2
            · rename_i hgate
              have := hasTourBeenSeen_activeTourId cfg env st tourId
              rw [Option.isNone_iff_eq_none] at hgate
              rw [this] at hgate
              exact hgate
          · rename_i hgate
            simp only [Except.ok.injEq, Prod.mk.injEq] at h
            obtain ⟨h1, h2, h3⟩ := h
            subst h1 h2 h3
            refine ⟨rfl, ?_, Or.inl ⟨rfl, rfl, ?_⟩⟩
            · intro _
              simp only [Bool.or_eq_true, not_or, Bool.not_eq_true,
                Bool.not_eq_false'] at hguard
              exact hguard.1.2
            · intro _
              have hpres := hasTourBeenSeen_activeTourId cfg env st tourId
              intro hnone
              rw [hnone] at hpres
              rw [Option.isNone_iff_eq_none] at hgate
              exact hgate hpres
    · have hsel' : selTruthy tour.target = false := by
        simpa using hsel
      simp only [hsel', Bool.not_false, if_true] at h
      simp only [Except.ok.injEq, Prod.mk.injEq] at h
      obtain ⟨h1, h2, h3⟩ := h
      subst h1 h2 h3
      exact ⟨rfl, by simp, Or.inl ⟨rfl, rfl, by simp⟩⟩

/-- When every gating condition holds (registered tour, truthy selector,
element present, flag on, unseen, visibility off or resolved true), the
returned result is eligible — whatever the active-tour gate held. -/
theorem checkTourEligibility_conditions_eligible (cfg : Config) (env : Env)
    (st : TState) (tourId : String) (vis : Bool) (tour : TourConfig)
    (hlk : lookupTour cfg tourId = some tour)
    (hsel : selTruthy tour.target = true)
    (hq : (env.querySelector (tour.target.getD "")).isSome = true)
    (hf : env.isFeatureEnabled tourId = true)
    (hs : (hasTourBeenSeen cfg env st tourId).1 = false)
    (hv : Config.shouldCheckElementVisibility cfg = false ∨ vis = true)
    (r : TourEligibilityResult) (st' : TState) (ev : List Event)
    (h : checkTourEligibility cfg env st tourId vis = Except.ok (r, st', ev)) :
    r.eligible = true := by
  unfold checkTourEligibility at h
  rw [hlk] at h
  dsimp only at h
  simp only [hsel, Bool.not_true, Bool.false_eq_true, if_false] at h
  rcases hqo : env.querySelector (tour.target.getD "") with _ | el
  · rw [hqo] at hq
    simp at hq
  · rw [hqo] at h
    rcases hv with hv | hv <;>
      simp only [hv, hf, hs, Option.isNone_some, Bool.not_true, Bool.not_false,
        Bool.false_or, Bool.or_false, Bool.and_false, Bool.false_and,
        Bool.false_eq_true, if_false, Bool.or_self] at h <;>
        split at h <;>
          · simp only [Except.ok.injEq, Prod.mk.injEq] at h
            obtain ⟨h1, h2, h3⟩ := h
            rw [← h1]

/-- Claim C1: at most one tour is actively presented at a time.  For every
non-throwing evaluation: (i) a callback fires only for the asked tour, only
when the active-tour gate was empty at the claim instant, and only after the
gate assignment — the trace ends with the gate claim followed by the
callback; (ii) when the gate was empty and the result is eligible, the gate
ends up holding this tour's id; (iii) while another tour holds the gate,
no callback can fire through evaluation and the gate keeps its holder;
(iv) a suppressed evaluation still reports `eligible = true` whenever all
gating conditions are satisfied.  (The state the gate is checked against is
the state at the claim instant: the model applies the post-await
continuation to it atomically, exactly as the single-threaded source runs
the claim-and-call segment without an intervening suspension.) -/
theorem checkTourEligibility_single_active_tour (cfg : Config) (env : Env)
    (st : TState) (tourId : String) (vis : Bool) (r : TourEligibilityResult)
    (st' : TState) (ev : List Event)
    (h : checkTourEligibility cfg env st tourId vis = Except.ok (r, st', ev)) :
    (∀ t, Event.callbackFired t ∈ ev →
        t = tourId ∧ st.activeTourId = none ∧
        st'.activeTourId = some tourId ∧
        ∃ pre, ev = pre ++ [Event.gateClaimed tourId,
                            Event.callbackFired tourId]) ∧
    (st.activeTourId = none → r.eligible = true →
        st'.activeTourId = some tourId) ∧
    (∀ x, st.activeTourId = some x →
        (∀ t, Event.callbackFired t ∉ ev) ∧ st'.activeTourId = some x) ∧
    (∀ tour, lookupTour cfg tourId = some tour →
        selTruthy tour.target = true →
        (env.querySelector (tour.target.getD "")).isSome = true →
        env.isFeatureEnabled tourId = true →
        (hasTourBeenSeen cfg env st tourId).1 = false →
        (Config.shouldCheckElementVisibility cfg = false ∨ vis = true) →
        r.eligible = true) := by
  obtain ⟨-, -, hout⟩ := checkTourEligibility_outcome cfg env st tourId vis
    r st' ev h
  refine ⟨?_, ?_, ?_, ?_⟩
  · intro t ht
    rcases hout with ⟨hev, hst, -⟩ | ⟨cb, hev, hst, hel, hgate⟩
    · rw [hev] at ht
      exact absurd ht (hasTourBeenSeen_no_callback cfg env st tourId t)
    · rw [hev] at ht
      rcases List.mem_append.mp ht with ht1 | ht2
      · rcases List.mem_append.mp ht1 with ht3 | ht4
        · exact absurd ht3 (hasTourBeenSeen_no_callback cfg env st tourId t)
        · simp at ht4
      · have hcb : cb = true := by
          by_contra hcb
          rw [if_neg hcb] at ht2
          simp at ht2
        rw [hcb, if_pos rfl] at ht2
        simp only [List.mem_singleton, Event.callbackFired.injEq] at ht2
        refine ⟨ht2, hgate, by rw [hst], ?_⟩
        refine ⟨(hasTourBeenSeen cfg env st tourId).2.2, ?_⟩
        rw [hev, hcb, if_pos rfl]
        simp
  · intro hnone hel
    rcases hout with ⟨-, hst, himp⟩ | ⟨cb, -, hst, -, -⟩
    · exact absurd hnone (himp hel)
    · rw [hst]
  · intro x hx
    rcases hout with ⟨hev, hst, -⟩ | ⟨cb, -, -, -, hgate⟩
    · constructor
      · intro t ht
        rw [hev] at ht
        exact absurd ht (hasTourBeenSeen_no_callback cfg env st tourId t)
      · rw [hst, hasTourBeenSeen_activeTourId]
        exact hx
    · rw [hx] at hgate
      exact absurd hgate (by simp)
  · intro tour hlk hsel hq hf hs hv
    exact checkTourEligibility_conditions_eligible cfg env st tourId vis tour
      hlk hsel hq hf hs hv r st' ev h

/-- Claim C1, witness: with the gate already held by `feature-a`, evaluating
the fully-satisfied tour `feature-b` fires no callback, keeps the holder,
and still reports `eligible = true`. -/
theorem checkTourEligibility_single_active_tour_witness :
    (Event.callbackFired "feature-b" ∉ ([] : List Event)) ∧
    stGateHeld.activeTourId = some "feature-a" ∧
    ({ eligible := true, element := some 2, tourId := "feature-b",
       flagEnabled := true, targetPresent := true,
       alreadySeen := false } : TourEligibilityResult).eligible = true := by
  have hout := checkTourEligibility_single_active_tour cfgW envW stGateHeld
    "feature-b" true
    { eligible := true, element := some 2, tourId := "feature-b",
      flagEnabled := true, targetPresent := true, alreadySeen := false }
    stGateHeld [] rfl
  refine ⟨((hout.2.2.1 "feature-a" rfl).1 "feature-b"), rfl, ?_⟩
  exact hout.2.2.2
    { name := "Feature B Tour", target := some "#feature-b-element",
      hasOnEligible := true }
    rfl rfl rfl rfl rfl (Or.inl rfl)

/-- Claim C10 (frame): a non-throwing `checkTourEligibility` never performs
a remote write (`people.set`) and never captures an analytics event; its
only state changes are the local-store effects of the seen check (the
remote-to-local write-back and the discarding of a corrupt blob) and, when
eligible with an empty gate, the claiming of the active-tour gate.  (The
tour registry is immutable by construction — no method writes `this.tours`
— so it lives in `Config`, outside the mutable state.) -/
theorem checkTourEligibility_frame (cfg : Config) (env : Env) (st : TState)
    (tourId : String) (vis : Bool) (r : TourEligibilityResult) (st' : TState)
    (ev : List Event)
    (h : checkTourEligibility cfg env st tourId vis = Except.ok (r, st', ev)) :
    (∀ k, Event.remoteSet k ∉ ev) ∧
    (∀ n t tn, Event.capture n t tn ∉ ev) ∧
    st'.localStore = (hasTourBeenSeen cfg env st tourId).2.1.localStore ∧
    (st'.activeTourId = st.activeTourId ∨
      (st.activeTourId = none ∧ st'.activeTourId = some tourId ∧
        r.eligible = true)) := by
  obtain ⟨-, -, hout⟩ := checkTourEligibility_outcome cfg env st tourId vis
    r st' ev h
  rcases hout with ⟨hev, hst, -⟩ | ⟨cb, hev, hst, hel, hgate⟩
  · refine ⟨?_, ?_, ?_, ?_⟩
    · intro k hk
      rw [hev] at hk
      exact absurd hk (hasTourBeenSeen_no_remoteSet cfg env st tourId k)
    · intro n t tn hc
      rw [hev] at hc
      exact absurd hc (hasTourBeenSeen_no_capture cfg env st tourId n t tn)
    · rw [hst]
    · left
      rw [hst, hasTourBeenSeen_activeTourId]
  · refine ⟨?_, ?_, ?_, ?_⟩
    · intro k hk
      rw [hev] at hk
      rcases List.mem_append.mp hk with hk1 | hk2
      · rcases List.mem_append.mp hk1 with hk3 | hk4
        · exact absurd hk3 (hasTourBeenSeen_no_remoteSet cfg env st tourId k)
        · simp at hk4
      · split at hk2 <;> simp at hk2
    · intro n t tn hc
      rw [hev] at hc
      rcases List.mem_append.mp hc with hc1 | hc2
      · rcases List.mem_append.mp hc1 with hc3 | hc4
        · exact absurd hc3 (hasTourBeenSeen_no_capture cfg env st tourId n t tn)
        · simp at hc4
      · split at hc2 <;> simp at hc2
    · rw [hst]
    · right
      exact ⟨hgate, by rw [hst], hel⟩

/-- Claim C10, witness: the concrete eligible evaluation of `feature-b`
from a fresh state claims the gate and leaves the local store as the seen
check left it, with no remote write and no capture in the trace. -/
theorem checkTourEligibility_frame_witness :
    (∀ k, Event.remoteSet k ∉
        [Event.gateClaimed "feature-b", Event.callbackFired "feature-b"]) ∧
    (∀ n t tn, Event.capture n t tn ∉
        [Event.gateClaimed "feature-b", Event.callbackFired "feature-b"]) ∧
    ({ activeTourId := some "feature-b", localStore := none } : TState).localStore =
      (hasTourBeenSeen cfgW envW stEmpty "feature-b").2.1.localStore ∧
    (({ activeTourId := some "feature-b", localStore := none } : TState).activeTourId =
        stEmpty.activeTourId ∨
      (stEmpty.activeTourId = none ∧
        ({ activeTourId := some "feature-b", localStore := none } : TState).activeTourId =
          some "feature-b" ∧
        ({ eligible := true, element := some 2, tourId := "feature-b",
           flagEnabled := true, targetPresent := true,
           alreadySeen := false } : TourEligibilityResult).eligible = true)) :=
  checkTourEligibility_frame cfgW envW stEmpty "feature-b" true
    { eligible := true, element := some 2, tourId := "feature-b",
      flagEnabled := true, targetPresent := true, alreadySeen := false }
    { activeTourId := some "feature-b", localStore := none }
    [Event.gateClaimed "feature-b", Event.callbackFired "feature-b"]
    rfl

/-- Claim C6: `markTourAsSeen(tourId)` writes the prefixed key to the
remote store first (the trace starts with `people.set`), then writes it as
true into the local store synchronously (when the write does not throw; a
throwing write is caught, leaves the caller unaffected, and leaves the
remote write in the trace); it fires exactly one capture event, named
`tour_seen` with payload `{tour_id, tour_name}`; it clears the active-tour
gate unconditionally; and it ends by invoking `checkAllTours` un-awaited
(the method's own state result is complete before that call's effects). -/
theorem markTourAsSeen_effects (cfg : Config) (env : Env) (st : TState)
    (tourId : String) :
    (markTourAsSeen cfg env st tourId).1.activeTourId = none ∧
    ((markTourAsSeen cfg env st tourId).2).head? =
      some (Event.remoteSet (Config.userPropertyPrefix cfg ++ tourId)) ∧
    ((markTourAsSeen cfg env st tourId).2).filter isCapture =
      [Event.capture "tour_seen" tourId
        ((lookupTour cfg tourId).map TourConfig.name)] ∧
    ((markTourAsSeen cfg env st tourId).2).getLast? =
      some Event.checkAllToursInvoked ∧
    (env.localWriteFails = false →
      Event.localWrite (setKey (getSeenToursFromStorage st).1
          (Config.userPropertyPrefix cfg ++ tourId) true) ∈
        (markTourAsSeen cfg env st tourId).2 ∧
      (markTourAsSeen cfg env st tourId).1.localStore =
        some (LocalBlob.good (setKey (getSeenToursFromStorage st).1
          (Config.userPropertyPrefix cfg ++ tourId) true)) ∧
      lookupB (setKey (getSeenToursFromStorage st).1
          (Config.userPropertyPrefix cfg ++ tourId) true)
        (Config.userPropertyPrefix cfg ++ tourId) = true) ∧
    (env.localWriteFails = true →
      (markTourAsSeen cfg env st tourId).1.localStore =
        (getSeenToursFromStorage st).2.1.localStore ∧
      Event.remoteSet (Config.userPropertyPrefix cfg ++ tourId) ∈
        (markTourAsSeen cfg env st tourId).2) := by
  obtain ⟨a, ls⟩ := st
  cases hwf : env.localWriteFails <;>
    rcases ls with _ | (m | _) <;>
      refine ⟨?_, ?_, ?_, ?_, ?_, ?_⟩ <;>
        simp [markTourAsSeen, getSeenToursFromStorage, saveSeenToursToStorage,
          isCapture, hwf, lookupB_setKey_self]

/-- Claim C6, witness at the concrete fixture (fresh state, writes
succeed): marking `feature-a` as seen. -/
theorem markTourAsSeen_effects_witness :
    (markTourAsSeen cfgW envW stEmpty "feature-a").1.activeTourId = none ∧
    ((markTourAsSeen cfgW envW stEmpty "feature-a").2).head? =
      some (Event.remoteSet (Config.userPropertyPrefix cfgW ++ "feature-a")) ∧
    ((markTourAsSeen cfgW envW stEmpty "feature-a").2).filter isCapture =
      [Event.capture "tour_seen" "feature-a"
        ((lookupTour cfgW "feature-a").map TourConfig.name)] ∧
    ((markTourAsSeen cfgW envW stEmpty "feature-a").2).getLast? =
      some Event.checkAllToursInvoked ∧
    (envW.localWriteFails = false →
      Event.localWrite (setKey (getSeenToursFromStorage stEmpty).1
          (Config.userPropertyPrefix cfgW ++ "feature-a") true) ∈
        (markTourAsSeen cfgW envW stEmpty "feature-a").2 ∧
      (markTourAsSeen cfgW envW stEmpty "feature-a").1.localStore =
        some (LocalBlob.good (setKey (getSeenToursFromStorage stEmpty).1
          (Config.userPropertyPrefix cfgW ++ "feature-a") true)) ∧
      lookupB (setKey (getSeenToursFromStorage stEmpty).1
          (Config.userPropertyPrefix cfgW ++ "feature-a") true)
        (Config.userPropertyPrefix cfgW ++ "feature-a") = true) ∧
    (envW.localWriteFails = true →
      (markTourAsSeen cfgW envW stEmpty "feature-a").1.localStore =
        (getSeenToursFromStorage stEmpty).2.1.localStore ∧
      Event.remoteSet (Config.userPropertyPrefix cfgW ++ "feature-a") ∈
        (markTourAsSeen cfgW envW stEmpty "feature-a").2) :=
  markTourAsSeen_effects cfgW envW stEmpty "feature-a"

/-- The result of a non-throwing evaluation carries the asked tour id. -/
theorem checkTourEligibility_tourId (cfg : Config) (env : Env) (st : TState)
    (tourId : String) (vis : Bool) (r : TourEligibilityResult) (st' : TState)
    (ev : List Event)
    (h : checkTourEligibility cfg env st tourId vis = Except.ok (r, st', ev)) :
    r.tourId = tourId :=
  (checkTourEligibility_outcome cfg env st tourId vis r st' ev h).1

/-- Induction form of the `checkAllTours` loop: over any remaining segment
of the registry, the collected results cover a prefix of that segment one
per entry in order, every result before the last is ineligible, and the
loop leaves entries unvisited only when the last collected result is
eligible. -/
theorem checkAllToursGo_spec (cfg : Config) (env : Env)
    (visOracle : String → Bool) :
    ∀ (l : List (String × TourConfig)) (st : TState)
      (rs : List TourEligibilityResult) (st' : TState) (ev : List Event),
      checkAllToursGo cfg env visOracle l st = Except.ok (rs, st', ev) →
      ∃ pre post, l = pre ++ post ∧
        rs.map (fun r => r.tourId) = pre.map (fun p => p.1) ∧
        (∀ r ∈ rs.dropLast, r.eligible = false) ∧
        (post = [] ∨ ∃ r0, rs.getLast? = some r0 ∧ r0.eligible = true) := by
  intro l
  induction l with
  | nil =>
    intro st rs st' ev h
    simp only [checkAllToursGo, Except.ok.injEq, Prod.mk.injEq] at h
    obtain ⟨h1, h2, h3⟩ := h
    subst h1
    exact ⟨[], [], by simp⟩
  | cons p rest ih =>
    intro st rs st' ev h
    simp only [checkAllToursGo] at h
    cases hc : checkTourEligibility cfg env st p.1 (visOracle p.1) with
    | error e => rw [hc] at h; exact absurd h (by simp)
    | ok q =>
      obtain ⟨r, st1, ev1⟩ := q
      rw [hc] at h
      dsimp only at h
      by_cases he : r.eligible = true
      · rw [if_pos he] at h
        simp only [Except.ok.injEq, Prod.mk.injEq] at h
        obtain ⟨h1, h2, h3⟩ := h
        subst h1
        refine ⟨[p], rest, by simp, ?_, by simp, Or.inr ⟨r, rfl, he⟩⟩
        simp [checkTourEligibility_tourId cfg env st p.1 (visOracle p.1)
          r st1 ev1 hc]
      · rw [if_neg he] at h
        cases hrec : checkAllToursGo cfg env visOracle rest st1 with
        | error e => rw [hrec] at h; exact absurd h (by simp)
        | ok q2 =>
          obtain ⟨rs2, st2, ev2⟩ := q2
          rw [hrec] at h
          simp only [Except.ok.injEq, Prod.mk.injEq] at h
          obtain ⟨h1, h2, h3⟩ := h
          subst h1
          obtain ⟨pre, post, hl, hmap, hdrop, hlast⟩ :=
            ih st1 rs2 st2 ev2 hrec
          refine ⟨p :: pre, post, by rw [hl]; rfl, ?_, ?_, ?_⟩
          · simp only [List.map_cons, hmap,
              checkTourEligibility_tourId cfg env st p.1 (visOracle p.1)
                r st1 ev1 hc]
          · cases rs2 with
            | nil => simp
            | cons b l2 =>
              intro x hx
              rw [List.dropLast_cons₂] at hx
              rcases List.mem_cons.mp hx with hx1 | hx2
              · rw [hx1]
                exact Bool.not_eq_true r.eligible ▸ he
              · exact hdrop x hx2
          · cases rs2 with
            | nil =>
              rcases hlast with hp | ⟨r0, hr0, -⟩
              · exact Or.inl hp
              · simp at hr0
            | cons b l2 =>
              rcases hlast with hp | ⟨r0, hr0, he0⟩
              · exact Or.inl hp
              · exact Or.inr ⟨r0, by rw [List.getLast?_cons_cons]; exact hr0,
                  he0⟩

/-- Claim C9: `checkAllTours` iterates the registry in insertion order,
collecting one result per entry, and stops at — and includes — the first
result with `eligible = true` (even one whose callback was suppressed by an
already-active tour: the stop tests only the `eligible` field, which C1
shows is reported even under suppression).  Hence every returned result
except possibly the last has `eligible = false`, and registry entries are
left unevaluated only when the last collected result is eligible. -/
theorem checkAllTours_stops_at_first_eligible (cfg : Config) (env : Env)
    (st : TState) (visOracle : String → Bool)
    (rs : List TourEligibilityResult) (st' : TState) (ev : List Event)
    (h : checkAllTours cfg env st visOracle = Except.ok (rs, st', ev)) :
    ∃ pre post, cfg.tours = pre ++ post ∧
      rs.map (fun r => r.tourId) = pre.map (fun p => p.1) ∧
      (∀ r ∈ rs.dropLast, r.eligible = false) ∧
      (post = [] ∨ ∃ r0, rs.getLast? = some r0 ∧ r0.eligible = true) :=
  checkAllToursGo_spec cfg env visOracle cfg.tours st rs st' ev h

/-- Claim C9, witness: with `feature-a` already seen (remotely) and
`feature-b` eligible, the pass returns one result per tour in order, the
first ineligible, the second eligible, and stops there (the registry's
third entry is never evaluated). -/
theorem checkAllTours_stops_at_first_eligible_witness :
    ∃ pre post, cfgW.tours = pre ++ post ∧
      rsW.map (fun r => r.tourId) = pre.map (fun p => p.1) ∧
      (∀ r ∈ rsW.dropLast, r.eligible = false) ∧
      (post = [] ∨ ∃ r0, rsW.getLast? = some r0 ∧ r0.eligible = true) :=
  checkAllTours_stops_at_first_eligible cfgW envW stEmpty (fun _ => true)
    rsW
    { activeTourId := some "feature-b",
      localStore := some (LocalBlob.good [("seen_tour_feature-a", true)]) }
    [Event.localWrite [("seen_tour_feature-a", true)],
     Event.gateClaimed "feature-b", Event.callbackFired "feature-b"]
    rfl

/-- A resolved-and-disposed visibility machine absorbs every further
occurrence. -/
theorem visStep_terminal (m : VisMachine) (e : VisEvent)
    (hc : m.connected = false) (hr : m.registered = false) :
    visStep m e = m := by
  cases e with
  | intersect b => simp [visStep, hc]
  | timerFired => simp [visStep, hr]

theorem visRun_terminal (m : VisMachine) (es : List VisEvent)
    (hc : m.connected = false) (hr : m.registered = false) :
    visRun m es = m := by
  induction es with
  | nil => rfl
  | cons e t ih =>
    show visRun (visStep m e) t = m
    rw [visStep_terminal m e hc hr]
    exact ih

/-- From the freshly subscribed machine, any schedule leaves the machine in
one of three states: still pending, resolved true, or resolved false; the
two resolved states absorb everything. -/
theorem visRun_cases_aux (es : List VisEvent) :
    ∀ m : VisMachine,
      (m = initialVisMachine ∨
        m = { connected := false, registered := false,
              resolutions := [true] } ∨
        m = { connected := false, registered := false,
              resolutions := [false] }) →
      (visRun m es = initialVisMachine ∨
        visRun m es = { connected := false, registered := false,
                        resolutions := [true] } ∨
        visRun m es = { connected := false, registered := false,
                        resolutions := [false] }) := by
  induction es with
  | nil => intro m hm; exact hm
  | cons e t ih =>
    intro m hm
    have hstep : visStep m e = initialVisMachine ∨
        visStep m e = { connected := false, registered := false,
                        resolutions := [true] } ∨
        visStep m e = { connected := false, registered := false,
                        resolutions := [false] } := by
      rcases hm with rfl | rfl | rfl
      · cases e with
        | intersect b =>
          cases b with
          | true => exact Or.inr (Or.inl rfl)
          | false => exact Or.inl rfl
        | timerFired => exact Or.inr (Or.inr rfl)
      · exact Or.inr (Or.inl (visStep_terminal _ e rfl rfl))
      · exact Or.inr (Or.inr (visStep_terminal _ e rfl rfl))
    show visRun (visStep m e) t = _ ∨ _ ∨ _
    exact ih (visStep m e) hstep

theorem visRun_resolutions_le_one (es : List VisEvent) :
    (visRun initialVisMachine es).resolutions.length ≤ 1 := by
  rcases visRun_cases_aux es initialVisMachine (Or.inl rfl) with h | h | h <;>
    rw [h] <;> simp [initialVisMachine]

theorem visRun_timer_resolves (es : List VisEvent)
    (ht : VisEvent.timerFired ∈ es) :
    (visRun initialVisMachine es).resolutions.length = 1 := by
  induction es with
  | nil => cases ht
  | cons e t ih =>
    show (visRun (visStep initialVisMachine e) t).resolutions.length = 1
    cases e with
    | timerFired =>
      rw [show visStep initialVisMachine VisEvent.timerFired =
          { connected := false, registered := false,
            resolutions := [false] } from rfl,
        visRun_terminal _ _ rfl rfl]
      rfl
    | intersect b =>
      cases b with
      | true =>
        rw [show visStep initialVisMachine (VisEvent.intersect true) =
            { connected := false, registered := false,
              resolutions := [true] } from rfl,
          visRun_terminal _ _ rfl rfl]
        rfl
      | false =>
        have he : VisEvent.timerFired ∈ t := by
          rcases List.mem_cons.mp ht with h | h
          · exact absurd h (by simp)
          · exact h
        rw [show visStep initialVisMachine (VisEvent.intersect false) =
            initialVisMachine from rfl]
        exact ih he

/-- Claim C7: the visibility check protocol.  (i) A rectangle fully inside
the viewport resolves `true` synchronously with no subscription; (ii)
otherwise a subscription is created with intersection threshold 1/10 and a
30000 ms timer; (iii) each invocation resolves at most once, whatever is
delivered; (iv) once the timer fires it has resolved exactly once; (v) a
timer firing after the registry entry is gone is a no-op; (vi) a `false`
resolution can only be produced by the timer firing while the subscription
is still live; (vii)/(viii) whichever of the intersection event and the
timer comes first governs, and the loser changes nothing. -/
theorem checkVisibility_protocol :
    (∀ (r : Rect) (vh vw : Int), isInViewport r vh vw = true →
        checkVisibilityStart r vh vw = VisStart.immediate true) ∧
    (∀ (r : Rect) (vh vw : Int), isInViewport r vh vw = false →
        checkVisibilityStart r vh vw = VisStart.subscribed initialVisMachine
          { threshold := 1/10, timeoutMs := 30000 }) ∧
    (∀ es : List VisEvent,
        (visRun initialVisMachine es).resolutions.length ≤ 1) ∧
    (∀ es : List VisEvent, VisEvent.timerFired ∈ es →
        (visRun initialVisMachine es).resolutions.length = 1) ∧
    (∀ m : VisMachine, m.registered = false →
        visStep m VisEvent.timerFired = m) ∧
    (∀ (m : VisMachine) (e : VisEvent),
        false ∈ (visStep m e).resolutions →
        false ∈ m.resolutions ∨
          (e = VisEvent.timerFired ∧ m.registered = true)) ∧
    (∀ es : List VisEvent,
        visRun initialVisMachine (VisEvent.intersect true :: es) =
          { connected := false, registered := false,
            resolutions := [true] }) ∧
    (∀ es : List VisEvent,
        visRun initialVisMachine (VisEvent.timerFired :: es) =
          { connected := false, registered := false,
            resolutions := [false] }) := by
  refine ⟨?_, ?_, visRun_resolutions_le_one, visRun_timer_resolves,
    ?_, ?_, ?_, ?_⟩
  · intro r vh vw hin
    unfold checkVisibilityStart
    rw [hin]
    rfl
  · intro r vh vw hin
    unfold checkVisibilityStart
    rw [hin]
    rfl
  · intro m hr
    simp [visStep, hr]
  · intro m e h
    cases e with
    | intersect b =>
      simp only [visStep] at h
      split at h
      · simp only [List.mem_append] at h
        rcases h with h | h
        · exact Or.inl h
        · simp at h
      · exact Or.inl h
    | timerFired =>
      simp only [visStep] at h
      split at h
      · rename_i hreg
        simp only [List.mem_append] at h
        rcases h with h | h
        · exact Or.inl h
        · exact Or.inr ⟨rfl, hreg⟩
      · exact Or.inl h
  · intro es
    show visRun (visStep initialVisMachine (VisEvent.intersect true)) es = _
    rw [show visStep initialVisMachine (VisEvent.intersect true) =
        { connected := false, registered := false,
          resolutions := [true] } from rfl]
    exact visRun_terminal _ _ rfl rfl
  · intro es
    show visRun (visStep initialVisMachine VisEvent.timerFired) es = _
    rw [show visStep initialVisMachine VisEvent.timerFired =
        { connected := false, registered := false,
          resolutions := [false] } from rfl]
    exact visRun_terminal _ _ rfl rfl

/-- The constructor's localStorage reconciliation emits only local-store
events (a removal of a corrupt blob, a single batched write), never a
diagnostic. -/
theorem syncLocalStorageWithPostHog_events (cfg : Config) (env : Env)
    (st : TState) :
    ∀ e ∈ (syncLocalStorageWithPostHog cfg env st).2,
      e = Event.localRemove ∨ ∃ m, e = Event.localWrite m := by
  unfold syncLocalStorageWithPostHog
  dsimp only
  split
  · intro e he
    rcases List.mem_append.mp he with h1 | h2
    · exact Or.inl (getSeenToursFromStorage_events st e h1)
    · exact Or.inr (saveSeenToursToStorage_events _ _ _ e h2)
  · intro e he
    exact Or.inl (getSeenToursFromStorage_events st e he)

theorem syncLocalStorageWithPostHog_no_warn (cfg : Config) (env : Env)
    (st : TState) :
    ((syncLocalStorageWithPostHog cfg env st).2).filter isWarn = [] := by
  rw [List.filter_eq_nil_iff]
  intro e he
  rcases syncLocalStorageWithPostHog_events cfg env st e he with h | ⟨m, h⟩ <;>
    simp [h, isWarn]

/-- Claim C8: the missing-feature-flags policy, in the two modes the
repository holds (the spec presents the pair as a configurable
strict/permissive mode).  Permissive (the current class): construction
succeeds whatever flags are missing, the registry keeps every supplied tour,
and the diagnostics contain exactly one missing-flags warning — listing all
missing flag ids — when diagnostics are enabled and at least one flag is
missing, and none otherwise.  Strict (the earlier class): with any flag
missing, construction fails with an error naming the same list, and no
instance — hence no registry — exists.  In either mode a tour whose flag
the service reports disabled can never reach `eligible = true`. -/
theorem missing_flags_policy (cfg : Config) (env : Env) (st : TState)
    (debug : Bool) :
    (∃ mi st2, construct FlagPolicy.permissive debug true cfg env st =
        Except.ok (mi, st2) ∧
      mi.registry = cfg.tours ∧
      mi.events.filter isWarn =
        (if debug = true ∧ missingFlags cfg env ≠ [] then
          [Event.warnMissingFlags (missingFlags cfg env)] else [])) ∧
    (missingFlags cfg env ≠ [] →
      construct FlagPolicy.strict debug true cfg env st =
        Except.error (ConstructError.flagsNotConfigured
          (missingFlags cfg env))) ∧
    (∀ (tourId : String) (st2 : TState) (vis : Bool),
      env.isFeatureEnabled tourId = false →
      ∀ (r : TourEligibilityResult) (st3 : TState) (ev : List Event),
        checkTourEligibility cfg env st2 tourId vis = Except.ok (r, st3, ev) →
        r.eligible = false) := by
  refine ⟨?_, ?_, ?_⟩
  · unfold construct validateFeatureFlags
    dsimp only
    by_cases hm : missingFlags cfg env = []
    · rw [if_pos hm]
      refine ⟨_, _, rfl, rfl, ?_⟩
      rw [List.nil_append, syncLocalStorageWithPostHog_no_warn,
        if_neg (by simp [hm])]
    · rw [if_neg hm]
      refine ⟨_, _, rfl, rfl, ?_⟩
      rw [List.filter_append, syncLocalStorageWithPostHog_no_warn,
        List.append_nil]
      cases debug <;> simp [isWarn, hm]
  · intro hm
    unfold construct validateFeatureFlags
    dsimp only
    rw [if_neg hm]
    rfl
  · intro tourId st2 vis hf r st3 ev h
    obtain ⟨-, hflag, -⟩ := checkTourEligibility_outcome cfg env st2 tourId
      vis r st3 ev h
    cases he : r.eligible with
    | false => rfl
    | true => rw [hflag he] at hf; cases hf

/-- Claim C8, witness: the concrete registry with every flag missing —
permissive construction succeeds with one diagnostic (debug on), strict
construction fails naming all three flags, and `feature-a` cannot become
eligible while its flag is off. -/
theorem missing_flags_policy_witness :
    (∃ mi st2, construct FlagPolicy.permissive true true cfgW
        { envW with isFeatureEnabled := fun _ => false } stEmpty =
        Except.ok (mi, st2) ∧
      mi.registry = cfgW.tours ∧
      mi.events.filter isWarn =
        (if (true : Bool) = true ∧
            missingFlags cfgW { envW with isFeatureEnabled := fun _ => false } ≠ [] then
          [Event.warnMissingFlags
            (missingFlags cfgW { envW with isFeatureEnabled := fun _ => false })]
         else [])) ∧
    (missingFlags cfgW { envW with isFeatureEnabled := fun _ => false } ≠ [] →
      construct FlagPolicy.strict true true cfgW
          { envW with isFeatureEnabled := fun _ => false } stEmpty =
        Except.error (ConstructError.flagsNotConfigured
          (missingFlags cfgW { envW with isFeatureEnabled := fun _ => false }))) ∧
    (∀ (tourId : String) (st2 : TState) (vis : Bool),
      ({ envW with isFeatureEnabled := fun _ => false } : Env).isFeatureEnabled
          tourId = false →
      ∀ (r : TourEligibilityResult) (st3 : TState) (ev : List Event),
        checkTourEligibility cfgW
            { envW with isFeatureEnabled := fun _ => false } st2 tourId vis =
          Except.ok (r, st3, ev) →
        r.eligible = false) :=
  missing_flags_policy cfgW { envW with isFeatureEnabled := fun _ => false }
    stEmpty true

end PosthogTours
